import Mathlib

/-!
Verification of the CrossPoint Reader wire-transport core
(`src/crosspoint_reader/ws_client.py`, plus the chunk-size handling of
`src/crosspoint_reader/driver.py`) against its design specification.

The Python code is shallowly embedded: bytes are `Nat` values below 256,
byte strings are `List Nat`, the socket byte stream read by the client is a
`List Nat` consumed from the front, and operations that can raise
`WebSocketError(msg)` return `Except String _` carrying the exact message
string the Python code passes to the exception constructor.
-/

set_option maxRecDepth 4096

/-! ## Frame codec (ws_client.py, `_send_frame` / `_read_frame`) -/

/-- The 4-byte masking key, `mask = os.urandom(4)` in `_send_frame`
(ws_client.py line 93).  The code draws it at random; the embedding
quantifies over it. -/
structure MaskKey where
  m0 : Nat
  m1 : Nat
  m2 : Nat
  m3 : Nat
deriving DecidableEq

/-- `mask[i % 4]` for a 4-byte mask. -/
def maskAt (m : MaskKey) (i : Nat) : Nat :=
  match i % 4 with
  | 0 => m.m0
  | 1 => m.m1
  | 2 => m.m2
  | _ => m.m3

/-- XOR of a byte sequence with the repeating 4-byte mask, starting at
index `i`.  With `i = 0` this is both the masking loop of `_send_frame`
(ws_client.py lines 95-97, `masked[i] ^= mask[i % 4]`) and the unmasking
expression of `_read_frame` (line 143,
`bytes(b ^ mask[i % 4] for i, b in enumerate(payload))`). -/
def maskPayload (m : MaskKey) : Nat → List Nat → List Nat
  | _, [] => []
  | i, b :: bs => (b ^^^ maskAt m i) :: maskPayload m (i + 1) bs

/-- `struct.pack('!H', n)`: the two big-endian bytes of a 16-bit length. -/
def pack16 (n : Nat) : List Nat :=
  [n / 2 ^ 8 % 256, n % 256]

/-- `struct.pack('!Q', n)`: the eight big-endian bytes of a 64-bit length.
(Python raises `struct.error` for `n ≥ 2^64`; callers in this file add that
bound as a hypothesis where it matters.) -/
def pack64 (n : Nat) : List Nat :=
  [n / 2 ^ 56 % 256, n / 2 ^ 48 % 256, n / 2 ^ 40 % 256, n / 2 ^ 32 % 256,
   n / 2 ^ 24 % 256, n / 2 ^ 16 % 256, n / 2 ^ 8 % 256, n % 256]

/-- `struct.unpack('!H', _)` / `struct.unpack('!Q', _)`: big-endian
recombination of a list of bytes into an unsigned integer. -/
def unpackBE (bs : List Nat) : Nat :=
  bs.foldl (fun a b => a * 256 + b) 0

/-- `WebSocketClient._send_frame` (ws_client.py lines 76-98) as the exact
byte sequence written to the socket by `self.sock.sendall(header + masked)`:
first byte `fin | (opcode & 0x0F)` with `fin = 0x80`; second byte
`mask_bit | length-field` with `mask_bit = 0x80`; the 16- or 64-bit
big-endian extended length when the payload does not fit 125 bytes;
the 4 mask bytes; then the masked payload. -/
def send_frame (opcode : Nat) (payload : List Nat) (m : MaskKey) : List Nat :=
  (if payload.length ≤ 125 then
    [0x80 ||| (opcode &&& 0x0F), 0x80 ||| payload.length]
   else if payload.length ≤ 65535 then
    [0x80 ||| (opcode &&& 0x0F), 0x80 ||| 126] ++ pack16 payload.length
   else
    [0x80 ||| (opcode &&& 0x0F), 0x80 ||| 127] ++ pack64 payload.length)
  ++ ([m.m0, m.m1, m.m2, m.m3] ++ maskPayload m 0 payload)

/-- `WebSocketClient._read_frame` (ws_client.py lines 126-144), reading one
frame from the front of a byte stream.  Returns `(opcode, payload, rest)`;
`none` models `_recv_exact` raising `WebSocketError('Socket closed')`
because the stream ended mid-frame.  Mirrors the source: read 2 header
bytes; `opcode = b1 & 0x0F`; length marker `b2 & 0x7F` with 126/127
selecting a 16/64-bit big-endian extension; if the mask bit `b2 & 0x80` is
set, read 4 mask bytes and unmask the payload after reading it. -/
def read_frame : List Nat → Option (Nat × List Nat × List Nat)
  | b1 :: b2 :: rest =>
    match (if b2 &&& 0x7F = 126 then
             match rest with
             | e0 :: e1 :: r => some (unpackBE [e0, e1], r)
             | _ => none
           else if b2 &&& 0x7F = 127 then
             match rest with
             | e0 :: e1 :: e2 :: e3 :: e4 :: e5 :: e6 :: e7 :: r =>
               some (unpackBE [e0, e1, e2, e3, e4, e5, e6, e7], r)
             | _ => none
           else
             some (b2 &&& 0x7F, rest) : Option (Nat × List Nat)) with
    | none => none
    | some (length, r1) =>
      if (b2 &&& 0x80) ≠ 0 then
        match r1 with
        | k0 :: k1 :: k2 :: k3 :: r2 =>
          if r2.length < length then none
          else some (b1 &&& 0x0F, maskPayload ⟨k0, k1, k2, k3⟩ 0 (r2.take length), r2.drop length)
        | _ => none
      else
        if r1.length < length then none
        else some (b1 &&& 0x0F, r1.take length, r1.drop length)
  | _ => none

/-! ### Codec lemmas -/

theorem maskPayload_length (m : MaskKey) (i : Nat) (l : List Nat) :
    (maskPayload m i l).length = l.length := by
  induction l generalizing i with
  | nil => rfl
  | cons b bs ih => simp [maskPayload, ih]

theorem maskPayload_maskPayload (m : MaskKey) (i : Nat) (l : List Nat) :
    maskPayload m i (maskPayload m i l) = l := by
  induction l generalizing i with
  | nil => rfl
  | cons b bs ih =>
    simp only [maskPayload, ih]
    rw [Nat.xor_assoc, Nat.xor_self, Nat.xor_zero]

theorem or128_and127 {n : Nat} (h : n ≤ 125) : (128 ||| n) &&& 127 = n := by
  have H : ∀ x, x < 126 → (128 ||| x) &&& 127 = x := by decide
  exact H n (by omega)

theorem or128_and128 {n : Nat} (h : n ≤ 125) : (128 ||| n) &&& 128 = 128 := by
  have H : ∀ x, x < 126 → (128 ||| x) &&& 128 = 128 := by decide
  exact H n (by omega)

theorem first_byte_opcode (op : Nat) : (128 ||| (op &&& 15)) &&& 15 = op &&& 15 := by
  have h : op &&& 15 < 16 := Nat.lt_succ_of_le Nat.and_le_right
  have H : ∀ x, x < 16 → (128 ||| x) &&& 15 = x := by decide
  exact H _ h

/-- Round-trip of the codec, arbitrary opcode: decoding the encoder's bytes
(with anything appended behind them) yields the 4-bit opcode, the original
payload, and the trailing bytes, for every mask key. -/
theorem read_frame_send_frame (op : Nat) (payload : List Nat) (m : MaskKey)
    (rest : List Nat) (h : payload.length < 2 ^ 64) :
    read_frame (send_frame op payload m ++ rest) =
      some (op &&& 0x0F, payload, rest) := by
  have hml : (maskPayload m 0 payload).length = payload.length :=
    maskPayload_length m 0 payload
  have hmm : maskPayload m 0 (maskPayload m 0 payload) = payload :=
    maskPayload_maskPayload m 0 payload
  have htake : ((maskPayload m 0 payload) ++ rest).take payload.length
      = maskPayload m 0 payload := by
    rw [← hml]; exact List.take_left _ _
  have hdrop : ((maskPayload m 0 payload) ++ rest).drop payload.length = rest := by
    rw [← hml]; exact List.drop_left _ _
  have hnlt : ¬ ((maskPayload m 0 payload ++ rest).length < payload.length) := by
    simp [List.length_append, hml]
  rcases Nat.lt_or_ge payload.length 126 with h1 | h1
  · -- inline 7-bit length
    have h125 : payload.length ≤ 125 := by omega
    have e : send_frame op payload m ++ rest
        = (128 ||| (op &&& 15)) :: (128 ||| payload.length) ::
          (m.m0 :: m.m1 :: m.m2 :: m.m3 :: (maskPayload m 0 payload ++ rest)) := by
      simp [send_frame, if_pos h125]
    rw [e]
    have d126 : ¬ (payload.length = 126) := by omega
    have d127 : ¬ (payload.length = 127) := by omega
    have cmask : ((128 ||| payload.length) &&& 128) ≠ 0 := by
      rw [or128_and128 h125]; omega
    simp only [read_frame, or128_and127 h125, if_neg d126, if_neg d127]
    rw [if_pos cmask]
    simp only [if_neg hnlt, htake, hdrop, hmm, first_byte_opcode]
  · rcases Nat.lt_or_ge payload.length 65536 with h2 | h2
    · -- 16-bit extended length
      have hno : ¬ (payload.length ≤ 125) := by omega
      have hle : payload.length ≤ 65535 := by omega
      have e : send_frame op payload m ++ rest
          = (128 ||| (op &&& 15)) :: (128 ||| 126) ::
            ((payload.length / 2 ^ 8 % 256) :: (payload.length % 256) ::
              (m.m0 :: m.m1 :: m.m2 :: m.m3 :: (maskPayload m 0 payload ++ rest))) := by
        simp [send_frame, if_neg hno, if_pos hle, pack16]
      rw [e]
      have hb2 : (128 ||| 126 : Nat) = 254 := by decide
      rw [hb2]
      have c126 : (254 &&& 127 : Nat) = 126 := by decide
      have cmask : ((254 : Nat) &&& 128) ≠ 0 := by decide
      have hlen : unpackBE [payload.length / 2 ^ 8 % 256, payload.length % 256]
          = payload.length := by
        simp only [unpackBE, List.foldl]
        omega
      simp only [read_frame, c126, if_pos, cmask, hlen, first_byte_opcode,
        if_neg hnlt, htake, hdrop, hmm]
      rw [if_pos cmask]
    · -- 64-bit extended length
      have hno : ¬ (payload.length ≤ 125) := by omega
      have hno2 : ¬ (payload.length ≤ 65535) := by omega
      have e : send_frame op payload m ++ rest
          = (128 ||| (op &&& 15)) :: (128 ||| 127) ::
            ((payload.length / 2 ^ 56 % 256) :: (payload.length / 2 ^ 48 % 256) ::
             (payload.length / 2 ^ 40 % 256) :: (payload.length / 2 ^ 32 % 256) ::
             (payload.length / 2 ^ 24 % 256) :: (payload.length / 2 ^ 16 % 256) ::
             (payload.length / 2 ^ 8 % 256) :: (payload.length % 256) ::
              (m.m0 :: m.m1 :: m.m2 :: m.m3 :: (maskPayload m 0 payload ++ rest))) := by
        simp [send_frame, if_neg hno, if_neg hno2, pack64]
      rw [e]
      have hb2 : (128 ||| 127 : Nat) = 255 := by decide
      rw [hb2]
      have c126 : ¬ ((255 &&& 127 : Nat) = 126) := by decide
      have c127 : (255 &&& 127 : Nat) = 127 := by decide
      have cmask : ((255 : Nat) &&& 128) ≠ 0 := by decide
      have hlen : unpackBE [payload.length / 2 ^ 56 % 256, payload.length / 2 ^ 48 % 256,
          payload.length / 2 ^ 40 % 256, payload.length / 2 ^ 32 % 256,
          payload.length / 2 ^ 24 % 256, payload.length / 2 ^ 16 % 256,
          payload.length / 2 ^ 8 % 256, payload.length % 256] = payload.length := by
        simp only [unpackBE, List.foldl]
        omega
      have c6 : ¬ ((127 : Nat) = 126) := by decide
      simp only [read_frame, if_neg c126, c127, if_neg c6, if_pos, cmask, hlen,
        first_byte_opcode, if_neg hnlt, htake, hdrop, hmm]
      rw [if_pos cmask]

example : read_frame (send_frame 2 [7, 8, 9] ⟨1, 2, 3, 4⟩ ++ [5]) = some (2, [7, 8, 9], [5]) := by
  decide

/-! ## UTF-8 text (`payload.decode('utf-8', 'ignore')`, `text.encode('utf-8')`)

The transport turns payload bytes into Python `str` values with
`bytes.decode('utf-8', 'ignore')` and strings into bytes with
`str.encode('utf-8')`.  The decoder below follows RFC 3629 (as CPython's
strict decoder does: no overlong forms, no surrogates, at most U+10FFFF)
and, like the `'ignore'` error handler, silently drops each maximal
ill-formed subpart. -/

/-- A UTF-8 continuation byte, `0x80..0xBF`. -/
def isUtf8Cont (b : Nat) : Bool :=
  0x80 ≤ b && b ≤ 0xBF

/-- Worker for `utf8DecodeIgnore`.  The first argument is pure fuel for the
termination checker: every step consumes at least one input byte, so fuel
equal to the input length (as supplied by `utf8DecodeIgnore`) never runs
out. -/
def utf8DecodeGo : Nat → List Nat → List Char
  | 0, _ => []
  | _, [] => []
  | fuel + 1, b0 :: rest =>
    if b0 < 0x80 then
      Char.ofNat b0 :: utf8DecodeGo fuel rest
    else if 0xC2 ≤ b0 && b0 ≤ 0xDF then
      match rest with
      | [] => []
      | b1 :: rest1 =>
        if isUtf8Cont b1 then
          Char.ofNat ((b0 - 0xC0) * 64 + (b1 - 0x80)) :: utf8DecodeGo fuel rest1
        else utf8DecodeGo fuel rest
    else if 0xE0 ≤ b0 && b0 ≤ 0xEF then
      match rest with
      | [] => []
      | b1 :: rest1 =>
        if (if b0 = 0xE0 then 0xA0 ≤ b1 && b1 ≤ 0xBF
            else if b0 = 0xED then 0x80 ≤ b1 && b1 ≤ 0x9F
            else isUtf8Cont b1) then
          match rest1 with
          | [] => []
          | b2 :: rest2 =>
            if isUtf8Cont b2 then
              Char.ofNat ((b0 - 0xE0) * 4096 + (b1 - 0x80) * 64 + (b2 - 0x80)) ::
                utf8DecodeGo fuel rest2
            else utf8DecodeGo fuel rest1
        else utf8DecodeGo fuel rest
    else if 0xF0 ≤ b0 && b0 ≤ 0xF4 then
      match rest with
      | [] => []
      | b1 :: rest1 =>
        if (if b0 = 0xF0 then 0x90 ≤ b1 && b1 ≤ 0xBF
            else if b0 = 0xF4 then 0x80 ≤ b1 && b1 ≤ 0x8F
            else isUtf8Cont b1) then
          match rest1 with
          | [] => []
          | b2 :: rest2 =>
            if isUtf8Cont b2 then
              match rest2 with
              | [] => []
              | b3 :: rest3 =>
                if isUtf8Cont b3 then
                  Char.ofNat ((b0 - 0xF0) * 262144 + (b1 - 0x80) * 4096 +
                      (b2 - 0x80) * 64 + (b3 - 0x80)) :: utf8DecodeGo fuel rest3
                else utf8DecodeGo fuel rest2
            else utf8DecodeGo fuel rest1
        else utf8DecodeGo fuel rest
    else
      utf8DecodeGo fuel rest

/-- `bytes.decode('utf-8', 'ignore')`, producing the character list of the
resulting string. -/
def utf8DecodeIgnore (bs : List Nat) : List Char :=
  utf8DecodeGo bs.length bs

/-- `bytes.decode('utf-8', 'ignore')` as a `String`. -/
def utf8Str (bs : List Nat) : String :=
  String.mk (utf8DecodeIgnore bs)

/-- `str.encode('utf-8')` for one character. -/
def utf8EncodeChar (c : Char) : List Nat :=
  if c.toNat < 0x80 then [c.toNat]
  else if c.toNat < 0x800 then
    [0xC0 + c.toNat / 64, 0x80 + c.toNat % 64]
  else if c.toNat < 0x10000 then
    [0xE0 + c.toNat / 4096, 0x80 + c.toNat / 64 % 64, 0x80 + c.toNat % 64]
  else
    [0xF0 + c.toNat / 262144, 0x80 + c.toNat / 4096 % 64,
     0x80 + c.toNat / 64 % 64, 0x80 + c.toNat % 64]

/-- `str.encode('utf-8')` for a whole string. -/
def utf8Encode (s : String) : List Nat :=
  (s.data.map utf8EncodeChar).flatten

example : utf8Str [98, 121, 101] = "bye" := by decide
example : utf8Str [82, 69, 65, 68, 89] = "READY" := by decide
example : utf8Str [0xC3, 0xA9, 33] = "é!" := by decide
example : utf8Str [0xC3, 65] = "A" := by decide
example : utf8Encode "READY" = [82, 69, 65, 68, 89] := by decide

/-! ## WebSocket transport (ws_client.py, `WebSocketClient`)

The loops of `read_text` and `drain_messages` act on the sequence of
frames `_read_frame` yields from the connection (the codec itself is
verified separately above).  A frame is the `(opcode, payload)` pair
`_read_frame` returns; frames the client sends are recorded as such pairs
too.  An exhausted inbound frame list models the blocking read reaching
`read_text`'s deadline (`WebSocketError('Timed out waiting for text
frame')`).  The connection state is `Option Unit`: `some ()` for a live
`self.sock`, `none` for `self.sock = None`; a `fault : Bool` parameter
injects an arbitrary socket-level send failure where the source wraps a
send in `try/except`. -/

structure WSFrame where
  opcode : Nat
  payload : List Nat
deriving DecidableEq

instance {ε α : Type} [DecidableEq ε] [DecidableEq α] : DecidableEq (Except ε α) := fun a b =>
  match a, b with
  | .error e, .error f =>
    if h : e = f then .isTrue (by rw [h]) else .isFalse (by intro c; cases c; exact h rfl)
  | .error _, .ok _ => .isFalse (by intro c; cases c)
  | .ok _, .error _ => .isFalse (by intro c; cases c)
  | .ok a, .ok b =>
    if h : a = b then .isTrue (by rw [h]) else .isFalse (by intro c; cases c; exact h rfl)

/-- The close-frame parse performed by `read_text` when `opcode == 0x8`
(ws_client.py lines 107-111): `code = None; reason = ''`, and when the
payload has at least two bytes, `code = struct.unpack('!H', payload[:2])[0]`
and `reason = payload[2:].decode('utf-8', 'ignore')`.  The pair is passed
to `self._log(...)` only. -/
def close_parse (payload : List Nat) : Option Nat × String :=
  if 2 ≤ payload.length then
    (some (unpackBE [payload.getD 0 0, payload.getD 1 0]), utf8Str (payload.drop 2))
  else (none, "")

/-- Result of one `read_text` call: the frames the client wrote while
waiting (Pong replies), the `(code, reason)` pair logged if a Close frame
was seen, and either the returned payload bytes or the raised
`WebSocketError` message. -/
structure ReadTextResult where
  sent : List WSFrame
  closeInfo : Option (Option Nat × String)
  outcome : Except String (List Nat)
deriving DecidableEq

/-- `WebSocketClient.read_text` (ws_client.py lines 100-124) over the
inbound frame sequence: a Close frame (0x8) has its payload parsed for the
log and raises `WebSocketError('Connection closed')`; a Ping (0x9) is
answered with a Pong (0xA) carrying the same payload and the wait
continues; a Pong (0xA) is ignored; any other non-Text opcode is logged
and skipped; the first Text frame's payload is returned. -/
def read_text_loop : List WSFrame → ReadTextResult
  | [] => ⟨[], none, .error "Timed out waiting for text frame"⟩
  | f :: rest =>
    if f.opcode = 0x8 then
      ⟨[], some (close_parse f.payload), .error "Connection closed"⟩
    else if f.opcode = 0x9 then
      let r := read_text_loop rest
      ⟨⟨0xA, f.payload⟩ :: r.sent, r.closeInfo, r.outcome⟩
    else if f.opcode = 0xA then
      read_text_loop rest
    else if f.opcode ≠ 0x1 then
      read_text_loop rest
    else
      ⟨[], none, .ok f.payload⟩

/-- `read_text`'s return value proper: `payload.decode('utf-8', 'ignore')`
of the first Text frame, or the raised error message. -/
def read_text (frames : List WSFrame) : Except String String :=
  (read_text_loop frames).outcome.map utf8Str

/-- The `while True` body of `WebSocketClient.drain_messages`
(ws_client.py lines 158-168) once `select` reports data: Text frames are
decoded and collected, a Close frame raises
`WebSocketError('Connection closed')` (without parsing its payload), all
other opcodes are discarded. -/
def drain_loop : List WSFrame → List String → Except String (List String)
  | [], acc => .ok acc
  | f :: rest, acc =>
    if f.opcode = 0x1 then drain_loop rest (acc ++ [utf8Str f.payload])
    else if f.opcode = 0x8 then .error "Connection closed"
    else drain_loop rest acc

/-- `WebSocketClient.drain_messages` (ws_client.py lines 155-168):
`if self.sock is None: return []`, else drain the currently readable
frames. -/
def drain_messages (sock : Option Unit) (pending : List WSFrame) : Except String (List String) :=
  match sock with
  | none => .ok []
  | some _ => drain_loop pending []

/-- `WebSocketClient._send_frame` as an effectful operation
(ws_client.py lines 76-78 and 98): raises
`WebSocketError('Socket not connected')` when `self.sock is None`,
otherwise writes `send_frame opcode payload m` to the socket —
`fault = true` injects `self.sock.sendall` failing. -/
def send_frame_run (sock : Option Unit) (fault : Bool) (opcode : Nat) (payload : List Nat)
    (m : MaskKey) : Except String (List Nat) :=
  match sock with
  | none => .error "Socket not connected"
  | some _ => if fault then .error "send failed" else .ok (send_frame opcode payload m)

/-- `WebSocketClient.send_text` (ws_client.py lines 70-71):
`self._send_frame(0x1, text.encode('utf-8'))`. -/
def send_text (sock : Option Unit) (fault : Bool) (text : String) (m : MaskKey) :
    Except String (List Nat) :=
  send_frame_run sock fault 0x1 (utf8Encode text) m

/-- `WebSocketClient.send_binary` (ws_client.py lines 73-74):
`self._send_frame(0x2, payload)`. -/
def send_binary (sock : Option Unit) (fault : Bool) (payload : List Nat) (m : MaskKey) :
    Except String (List Nat) :=
  send_frame_run sock fault 0x2 payload m

/-- `WebSocketClient.close` (ws_client.py lines 58-68): early return when
`self.sock` is already `None`; otherwise `self._send_frame(0x8, b'')`
wrapped in `try/except Exception: pass`, then the socket is released with
`self.sock = None` guaranteed by `try/finally`.  The result is the new
socket state and the list of byte sequences actually written; the `Except`
layer shows that no send failure escapes to the caller. -/
def close_run (sock : Option Unit) (fault : Bool) (m : MaskKey) :
    Except String (Option Unit × List (List Nat)) :=
  match sock with
  | none => .ok (none, [])
  | some s =>
    .ok (none,
      match send_frame_run (some s) fault 0x8 [] m with
      | .ok bs => [bs]
      | .error _ => [])

example : read_text [⟨0x9, [120]⟩, ⟨0x1, [104, 105]⟩] = .ok "hi" := by decide
example : (read_text_loop [⟨0x8, [3, 232, 98, 121, 101]⟩]).closeInfo
    = some (some 1000, "bye") := by decide

/-! ## Discovery client (ws_client.py, `_broadcast_from_host` / `discover_device`)

Python's `int(s)` and `str.strip()` are modelled character-exactly for the
ASCII range: `int` strips surrounding whitespace, accepts one optional
sign, then decimal digits with single underscores allowed strictly between
digits; anything else raises `ValueError` (`none` here). -/

/-- The whitespace `str.strip()` / `int()` remove (ASCII subset). -/
def isPySpace (c : Char) : Bool :=
  c = ' ' || c = '\t' || c = '\n' || c = '\r' || c = '\x0b' || c = '\x0c'

/-- `str.strip()` on a character list. -/
def pyStrip (cs : List Char) : List Char :=
  ((cs.dropWhile isPySpace).reverse.dropWhile isPySpace).reverse

/-- Digits of a Python int literal after the first: decimal digits with
single underscores allowed only between digits. -/
def pyDigitsGo (acc : Nat) : List Char → Option Nat
  | [] => some acc
  | '_' :: c :: rest =>
    if c.isDigit then pyDigitsGo (acc * 10 + (c.toNat - 48)) rest else none
  | c :: rest =>
    if c.isDigit then pyDigitsGo (acc * 10 + (c.toNat - 48)) rest else none

/-- An unsigned run of digits (must start with a digit). -/
def pyUnsignedDigits : List Char → Option Nat
  | c :: rest => if c.isDigit then pyDigitsGo (c.toNat - 48) rest else none
  | [] => none

/-- Python `int(s)` on a string given as a character list. -/
def pyInt (cs : List Char) : Option Int :=
  match pyStrip cs with
  | '+' :: ds => (pyUnsignedDigits ds).map (fun n => (n : Int))
  | '-' :: ds => (pyUnsignedDigits ds).map (fun n => -(n : Int))
  | ds => (pyUnsignedDigits ds).map (fun n => (n : Int))

/-- The port-parsing step of `discover_device` (ws_client.py lines
243-249) applied to the decoded reply text: `semi = text.find(';')`;
`port = 81`; when a semicolon is present,
`port = int(text[semi + 1:].strip().split(',')[0])` with any parse
failure falling back to `81`. -/
def parse_reply_port (text : List Char) : Int :=
  if text.contains ';' then
    match pyInt ((pyStrip ((text.dropWhile (fun c => c ≠ ';')).drop 1)).takeWhile
        (fun c => c ≠ ',')) with
    | some n => n
    | none => 81
  else 81

/-- `_broadcast_from_host` (ws_client.py lines 180-189): split the host on
`'.'`; unless there are exactly four parts, each accepted by Python's
`int`, return `None`; otherwise replace the last part by `'255'` and
rejoin with dots. -/
def broadcast_from_host (host : String) : Option String :=
  let parts := host.toList.splitOn '.'
  if parts.length ≠ 4 then none
  else if parts.all (fun p => (pyInt p).isSome) then
    some (String.mk (List.intercalate ['.'] (parts.dropLast ++ [['2', '5', '5']])))
  else none

/-- The fixed probe port list of `discover_device` (ws_client.py line 193). -/
def discovery_ports : List Nat :=
  [8134, 54982, 48123, 39001, 44044, 59678]

/-- The target list built by `discover_device` (ws_client.py lines
212-223): the global broadcast address on each port, then, for every
non-empty extra host, the host itself on each port followed by its subnet
broadcast (when `_broadcast_from_host` yields one) on each port. -/
def discovery_targets (extra_hosts : List String) : List (String × Nat) :=
  discovery_ports.map (fun p => ("255.255.255.255", p)) ++
  extra_hosts.foldr
    (fun h acc =>
      if h = "" then acc
      else
        discovery_ports.map (fun p => (h, p)) ++
        ((match broadcast_from_host h with
          | some b => discovery_ports.map (fun p => (b, p))
          | none => []) ++ acc))
    []

/-- One UDP reply as `sock.recvfrom` delivers it: the sender address
`addr[0]` and the datagram bytes. -/
structure UdpReply where
  addr : String
  data : List Nat
deriving DecidableEq

/-- The reply-handling core of `discover_device` (ws_client.py lines
225-251): for each of the 3 attempts, the replies arriving within that
attempt's listen window; the first reply received is decoded with
`data.decode('utf-8', 'ignore')`, parsed with `parse_reply_port`, and
returned immediately together with the sender address; windows with no
reply fall through to the next attempt; no reply anywhere yields
`(None, None)`. -/
def discover_device : List (List UdpReply) → Option (String × Int)
  | [] => none
  | window :: later =>
    match window with
    | [] => discover_device later
    | r :: _ => some (r.addr, parse_reply_port (utf8DecodeIgnore r.data))

example : broadcast_from_host "192.168.4.1" = some "192.168.4.255" := by decide
example : broadcast_from_host "not-an-ip" = none := by decide
example : broadcast_from_host "1.2.3.999" = some "1.2.3.255" := by decide
example : parse_reply_port "CrossPoint;8080,x".toList = 8080 := by decide
example : parse_reply_port "hello".toList = 81 := by decide
example : parse_reply_port "dev; 81x".toList = 81 := by decide
example : pyInt " -1_2 ".toList = some (-12) := by decide
example : pyInt "_1".toList = none := by decide
example : pyInt "1_".toList = none := by decide

/-! ## Upload session (ws_client.py, `upload_file`; driver.py, `upload_books`)

`upload_file` drives: connect, send `START:...`, read one text reply,
then stream the file in `f.read(chunk_size)` chunks as Binary frames,
then wait for `DONE`/`ERROR`.  The session is modelled against the text
replies `read_text` yields and the file contents; the chunks recorded are
the Binary-frame payloads handed to `send_binary`. -/

/-- `str.startswith(p)` (on whole strings, as `upload_file` uses it). -/
def py_starts_with (s p : String) : Bool :=
  p.toList.isPrefixOf s.toList

/-- The `START` command text `upload_file` sends (ws_client.py line 260):
`f'START:{filename}:{size}:{upload_path}'`. -/
def upload_start_msg (filename : String) (size : Nat) (upload_path : String) : String :=
  "START:" ++ filename ++ ":" ++ toString size ++ ":" ++ upload_path

/-- The reply check after `START` (ws_client.py lines 264-271):
`if not msg: raise WebSocketError('Unexpected response: <empty>')`;
`if msg.startswith('ERROR'): raise WebSocketError(msg)`;
`if msg != 'READY': raise WebSocketError('Unexpected response: ' + msg)`. -/
def await_ready (msg : String) : Except String Unit :=
  if msg = "" then .error "Unexpected response: <empty>"
  else if py_starts_with msg "ERROR" then .error msg
  else if msg ≠ "READY" then .error ("Unexpected response: " ++ msg)
  else .ok ()

/-- The chunking loop of `upload_file` (ws_client.py lines 274-283):
repeated `chunk = f.read(chunk_size)` until the read comes back empty;
each non-empty chunk is sent as one Binary frame.  (`f.read(0)` returns
`b''` immediately, so a zero chunk size sends nothing.) -/
def chunk_file (chunkSize : Nat) (data : List Nat) : List (List Nat) :=
  if chunkSize = 0 then []
  else if h : data = [] then []
  else data.take chunkSize :: chunk_file chunkSize (data.drop chunkSize)
termination_by data.length
decreasing_by
  simp only [List.length_drop]
  have := List.length_pos.mpr h
  omega

/-- The completion wait of `upload_file` (ws_client.py lines 286-292):
read text until `'DONE'` (success) or a message starting with `'ERROR'`
(raised verbatim); other messages keep the loop going; an exhausted reply
stream is `read_text`'s timeout error. -/
def await_done : List String → Except String Unit
  | [] => .error "Timed out waiting for text frame"
  | msg :: rest =>
    if msg = "DONE" then .ok ()
    else if py_starts_with msg "ERROR" then .error msg
    else await_done rest

/-- Observable outcome of one `upload_file` session: the Binary-frame
payloads sent during the transfer loop, and normal return versus the
`WebSocketError` message raised. -/
structure UploadOutcome where
  sentChunks : List (List Nat)
  result : Except String Unit
deriving DecidableEq

/-- `upload_file` (ws_client.py lines 254-294) from the first reply
onwards: check the reply to `START` with `await_ready`; on success send
every `f.read(chunk_size)` chunk of the file as a Binary frame and then
run the completion wait over the remaining replies; on failure raise
before any chunk is sent.  The opportunistic `client.drain_messages()`
after each chunk only reads acknowledgement text the device may have
buffered (`drain_messages` is modelled separately above); the sessions
modelled here assume no inbound frame arrives during the transfer loop,
where that call is then a no-op. -/
def upload_file (readyReply : String) (fileData : List Nat) (chunkSize : Nat)
    (finalReplies : List String) : UploadOutcome :=
  match await_ready readyReply with
  | .error e => { sentChunks := [], result := .error e }
  | .ok _ =>
    { sentChunks := chunk_file chunkSize fileData
      result := await_done finalReplies }

/-- The chunk-size clamp of `CrossPointDevice.upload_books`
(driver.py lines 267-270): `chunk_size = PREFS['chunk_size']`;
`if chunk_size > 2048: chunk_size = 2048` before `ws_client.upload_file`
is invoked with it. -/
def upload_books_chunk_size (configured : Nat) : Nat :=
  if 2048 < configured then 2048 else configured

theorem chunk_file_zero (data : List Nat) : chunk_file 0 data = [] := by
  rw [chunk_file]; simp

theorem chunk_file_nil (n : Nat) : chunk_file n [] = [] := by
  rw [chunk_file]; simp

theorem chunk_file_cons (n : Nat) (data : List Nat) (hn : n ≠ 0) (hd : data ≠ []) :
    chunk_file n data = data.take n :: chunk_file n (data.drop n) := by
  rw [chunk_file, if_neg hn, dif_neg hd]

example : chunk_file 2 [1, 2, 3, 4, 5] = [[1, 2], [3, 4], [5]] := by
  simp [chunk_file]
example : upload_books_chunk_size 8192 = 2048 := by decide
example : (upload_file "ERROR:disk full" [1, 2, 3] 2 ["DONE"]).sentChunks = [] := by
  decide

/-! ## Shared lemmas about the upload chunking -/

theorem chunk_file_length_le_aux :
    ∀ (k n : Nat) (data : List Nat), data.length ≤ k →
      ∀ c ∈ chunk_file n data, c.length ≤ n := by
  intro k
  induction k with
  | zero =>
    intro n data hlen c hc
    have hd : data = [] := by cases data with
      | nil => rfl
      | cons a l => simp at hlen
    subst hd
    rw [chunk_file_nil] at hc
    simp at hc
  | succ k ih =>
    intro n data hlen c hc
    by_cases hn : n = 0
    · subst hn; rw [chunk_file_zero] at hc; simp at hc
    by_cases hd : data = []
    · subst hd; rw [chunk_file_nil] at hc; simp at hc
    rw [chunk_file_cons n data hn hd] at hc
    rcases List.mem_cons.mp hc with rfl | hmem
    · simp [List.length_take]
    · apply ih n (data.drop n) ?_ c hmem
      simp only [List.length_drop]
      omega

/-- Every chunk `f.read(chunk_size)` yields has at most `chunk_size` bytes. -/
theorem chunk_file_length_le (n : Nat) (data : List Nat) :
    ∀ c ∈ chunk_file n data, c.length ≤ n :=
  chunk_file_length_le_aux data.length n data (Nat.le_refl _)

/-! ## The claims -/

/-- C1, counterexample to the claim as stated: `upload_file` itself does
not cap its chunks at 2048 bytes.  Called with a configured
`chunk_size = 8192` (larger than 2048) and a 2049-byte file, the
Transferring loop sends one Binary frame whose payload is the whole
2049-byte file, which exceeds 2048. -/
theorem C1_counterexample :
    (upload_file "READY" (List.replicate 2049 1) 8192 ["DONE"]).sentChunks
      = [List.replicate 2049 1] ∧
    2048 < (List.replicate 2049 1).length := by
  have hr : await_ready "READY" = .ok () := by decide
  have hne : List.replicate 2049 (1 : Nat) ≠ [] := by
    intro hx
    have hl := congrArg List.length hx
    rw [List.length_replicate, List.length_nil] at hl
    omega
  have hc : chunk_file 8192 (List.replicate 2049 1) = [List.replicate 2049 1] := by
    rw [chunk_file_cons 8192 _ (by decide) hne, List.take_replicate, List.drop_replicate]
    norm_num [chunk_file_nil]
  constructor
  · simp only [upload_file, hr, hc]
  · rw [List.length_replicate]
    omega

/-- C1, amended: the 2048-byte hard cap is applied by the caller
`CrossPointDevice.upload_books` (driver.py lines 267-270), not inside
`upload_file`; `upload_books` clamps every configured chunk size above
2048 down to 2048 before invoking `upload_file`, and then every Binary
frame sent during the Transferring loop carries at most 2048 bytes. -/
theorem C1_chunks_capped_via_driver (cfg : Nat) (hcfg : 2048 < cfg) (data : List Nat)
    (finalReplies : List String) :
    ((upload_file "READY" data (upload_books_chunk_size cfg) finalReplies).sentChunks.all
      (fun c => decide (c.length ≤ 2048))) = true := by
  have hsz : upload_books_chunk_size cfg = 2048 := by
    simp [upload_books_chunk_size, hcfg]
  have hr : await_ready "READY" = .ok () := by decide
  rw [hsz]
  simp only [upload_file, hr]
  rw [List.all_eq_true]
  intro c hc
  simpa using chunk_file_length_le 2048 data c hc

/-- Witness for C1_chunks_capped_via_driver at configured size 8192. -/
theorem C1_chunks_capped_via_driver_witness :
    2048 < 8192 ∧
    ((upload_file "READY" [1, 2, 3] (upload_books_chunk_size 8192) ["DONE"]).sentChunks.all
      (fun c => decide (c.length ≤ 2048))) = true :=
  ⟨by decide, C1_chunks_capped_via_driver 8192 (by decide) [1, 2, 3] ["DONE"]⟩

/-- C2: decoding the bytes produced by encoding a Binary frame (opcode
0x2) with any payload (any length expressible by the codec, which covers
0, 1, 125, 126, 65535, 65536 and 10,000,000) and any 4-byte mask key
yields exactly the opcode Binary and the original payload — the result
does not depend on the mask key, which appears nowhere on the right-hand
side. -/
theorem C2_binary_roundtrip (payload : List Nat) (m : MaskKey) (rest : List Nat)
    (h : payload.length < 2 ^ 64) :
    read_frame (send_frame 0x2 payload m ++ rest) = some (0x2, payload, rest) := by
  have h2 : (0x2 &&& 0x0F : Nat) = 0x2 := by decide
  have := read_frame_send_frame 0x2 payload m rest h
  rw [h2] at this
  exact this

/-- Witness for C2_binary_roundtrip on a concrete payload and mask. -/
theorem C2_binary_roundtrip_witness :
    ([7, 8, 9] : List Nat).length < 2 ^ 64 ∧
    read_frame (send_frame 0x2 [7, 8, 9] ⟨1, 2, 3, 4⟩ ++ []) = some (0x2, [7, 8, 9], []) :=
  ⟨by decide, C2_binary_roundtrip [7, 8, 9] ⟨1, 2, 3, 4⟩ [] (by decide)⟩

/-- C3, counterexample to the claim as stated: on a Close frame with
payload `[0x03, 0xE8] ++ "bye"` both `read_text` and `drain_messages`
raise `WebSocketError('Connection closed')` — an error that does NOT
carry status code 1000 or reason "bye": it is byte-for-byte identical to
the error raised for a Close frame with a different status code (1001)
and reason ("xyz"), and `drain_messages` does not even parse the payload. -/
theorem C3_counterexample :
    (read_text_loop [⟨0x8, [3, 232, 98, 121, 101]⟩]).outcome = .error "Connection closed" ∧
    (read_text_loop [⟨0x8, [3, 233, 120, 121, 122]⟩]).outcome
      = (read_text_loop [⟨0x8, [3, 232, 98, 121, 101]⟩]).outcome ∧
    drain_messages (some ()) [⟨0x8, [3, 232, 98, 121, 101]⟩] = .error "Connection closed" ∧
    drain_messages (some ()) [⟨0x8, [3, 233, 120, 121, 122]⟩]
      = drain_messages (some ()) [⟨0x8, [3, 232, 98, 121, 101]⟩] := by
  decide

/-- C3, amended: on receiving that Close frame, `read_text` and
`drain_messages` both fail with the fixed `'Connection closed'` error;
`read_text` (only) parses status 1000 and reason "bye" from the payload
(first two bytes big-endian, trailing UTF-8) but reports them solely to
the debug log — the raised error carries neither. -/
theorem C3_close_frame_behaviour :
    read_text [⟨0x8, [3, 232, 98, 121, 101]⟩] = .error "Connection closed" ∧
    (read_text_loop [⟨0x8, [3, 232, 98, 121, 101]⟩]).closeInfo = some (some 1000, "bye") ∧
    drain_messages (some ()) [⟨0x8, [3, 232, 98, 121, 101]⟩] = .error "Connection closed" := by
  decide

/-- C4: in the AwaitingReady state, exactly `"READY"` advances the
session to the Transferring loop (which then streams the file's chunks
and waits for completion); any reply starting with `"ERROR"` fails with
that message verbatim with zero chunks sent; the empty reply fails with
`'Unexpected response: <empty>'` with zero chunks; any other reply fails
with `'Unexpected response: ' + msg` with zero chunks. -/
theorem C4_ready_dispatch (em other : String) (data : List Nat) (n : Nat)
    (finalReplies : List String)
    (hm : py_starts_with em "ERROR" = true)
    (h1 : other ≠ "") (h2 : py_starts_with other "ERROR" = false) (h3 : other ≠ "READY") :
    upload_file "READY" data n finalReplies
      = ⟨chunk_file n data, await_done finalReplies⟩ ∧
    upload_file em data n finalReplies = ⟨[], .error em⟩ ∧
    upload_file "" data n finalReplies = ⟨[], .error "Unexpected response: <empty>"⟩ ∧
    upload_file other data n finalReplies
      = ⟨[], .error ("Unexpected response: " ++ other)⟩ := by
  refine ⟨?_, ?_, ?_, ?_⟩
  · have hr : await_ready "READY" = .ok () := by decide
    simp only [upload_file, hr]
  · have hm' : em ≠ "" := by
      intro he
      rw [he] at hm
      exact absurd hm (by decide)
    have hr : await_ready em = .error em := by
      simp [await_ready, hm', hm]
    simp only [upload_file, hr]
  · have hr : await_ready "" = .error "Unexpected response: <empty>" := by decide
    simp only [upload_file, hr]
  · have hr : await_ready other = .error ("Unexpected response: " ++ other) := by
      simp [await_ready, h1, h2, h3]
    simp only [upload_file, hr]

/-- Witness for C4_ready_dispatch with the spec's `"ERROR:disk full"`
reply and an arbitrary other reply `"HELLO"`. -/
theorem C4_ready_dispatch_witness :
    py_starts_with "ERROR:disk full" "ERROR" = true ∧
    ("HELLO" : String) ≠ "" ∧
    py_starts_with "HELLO" "ERROR" = false ∧
    ("HELLO" : String) ≠ "READY" ∧
    (upload_file "READY" [1, 2, 3] 2 ["DONE"]
        = ⟨chunk_file 2 [1, 2, 3], await_done ["DONE"]⟩ ∧
      upload_file "ERROR:disk full" [1, 2, 3] 2 ["DONE"] = ⟨[], .error "ERROR:disk full"⟩ ∧
      upload_file "" [1, 2, 3] 2 ["DONE"]
        = ⟨[], .error "Unexpected response: <empty>"⟩ ∧
      upload_file "HELLO" [1, 2, 3] 2 ["DONE"]
        = ⟨[], .error ("Unexpected response: " ++ "HELLO")⟩) :=
  ⟨by decide, by decide, by decide, by decide,
    C4_ready_dispatch "ERROR:disk full" "HELLO" [1, 2, 3] 2 ["DONE"]
      (by decide) (by decide) (by decide) (by decide)⟩

/-- C5: the encoder's length-field selection — a payload of at most 125
bytes is encoded with its length inline in the 7-bit field of the second
header byte; 126 to 65535 bytes with marker 126 followed by the 16-bit
big-endian length; more with marker 127 followed by the 64-bit big-endian
length.  Each branch is the smallest of the three encodings that fits the
length, the 7-bit field of the second byte recovers the inline length or
the marker, and the extended fields recombine big-endian to the exact
payload length. -/
theorem C5_length_field_selection (op : Nat) (m : MaskKey) (p1 p2 p3 : List Nat)
    (h1 : p1.length ≤ 125)
    (h2a : 126 ≤ p2.length) (h2b : p2.length ≤ 65535)
    (h3a : 65535 < p3.length) (h3b : p3.length < 2 ^ 64) :
    (send_frame op p1 m
        = [0x80 ||| (op &&& 0x0F), 0x80 ||| p1.length]
          ++ ([m.m0, m.m1, m.m2, m.m3] ++ maskPayload m 0 p1) ∧
      (0x80 ||| p1.length) &&& 0x7F = p1.length) ∧
    (send_frame op p2 m
        = [0x80 ||| (op &&& 0x0F), 0x80 ||| 126] ++ pack16 p2.length
          ++ ([m.m0, m.m1, m.m2, m.m3] ++ maskPayload m 0 p2) ∧
      (0x80 ||| 126 : Nat) &&& 0x7F = 126 ∧
      unpackBE (pack16 p2.length) = p2.length) ∧
    (send_frame op p3 m
        = [0x80 ||| (op &&& 0x0F), 0x80 ||| 127] ++ pack64 p3.length
          ++ ([m.m0, m.m1, m.m2, m.m3] ++ maskPayload m 0 p3) ∧
      (0x80 ||| 127 : Nat) &&& 0x7F = 127 ∧
      unpackBE (pack64 p3.length) = p3.length) := by
  refine ⟨⟨?_, or128_and127 h1⟩, ⟨?_, by decide, ?_⟩, ⟨?_, by decide, ?_⟩⟩
  · simp [send_frame, if_pos h1]
  · have hno : ¬ (p2.length ≤ 125) := by omega
    simp [send_frame, if_neg hno, if_pos h2b]
  · simp only [unpackBE, pack16, List.foldl]
    omega
  · have hno : ¬ (p3.length ≤ 125) := by omega
    have hno2 : ¬ (p3.length ≤ 65535) := by omega
    simp [send_frame, if_neg hno, if_neg hno2]
  · simp only [unpackBE, pack64, List.foldl]
    omega

/-- Witness for C5_length_field_selection at the claim's boundary
lengths 125, 126 and 65536. -/
theorem C5_length_field_selection_witness :
    ((List.replicate 125 (0 : Nat)).length ≤ 125 ∧
      126 ≤ (List.replicate 126 (0 : Nat)).length ∧
      (List.replicate 126 (0 : Nat)).length ≤ 65535 ∧
      65535 < (List.replicate 65536 (0 : Nat)).length ∧
      (List.replicate 65536 (0 : Nat)).length < 2 ^ 64) ∧
    ((send_frame 2 (List.replicate 125 (0 : Nat)) ⟨1, 2, 3, 4⟩
        = [0x80 ||| (2 &&& 0x0F), 0x80 ||| (List.replicate 125 (0 : Nat)).length]
          ++ ([1, 2, 3, 4] ++ maskPayload ⟨1, 2, 3, 4⟩ 0 (List.replicate 125 (0 : Nat))) ∧
      (0x80 ||| (List.replicate 125 (0 : Nat)).length) &&& 0x7F
        = (List.replicate 125 (0 : Nat)).length) ∧
    (send_frame 2 (List.replicate 126 (0 : Nat)) ⟨1, 2, 3, 4⟩
        = [0x80 ||| (2 &&& 0x0F), 0x80 ||| 126] ++ pack16 (List.replicate 126 (0 : Nat)).length
          ++ ([1, 2, 3, 4] ++ maskPayload ⟨1, 2, 3, 4⟩ 0 (List.replicate 126 (0 : Nat))) ∧
      (0x80 ||| 126 : Nat) &&& 0x7F = 126 ∧
      unpackBE (pack16 (List.replicate 126 (0 : Nat)).length)
        = (List.replicate 126 (0 : Nat)).length) ∧
    (send_frame 2 (List.replicate 65536 (0 : Nat)) ⟨1, 2, 3, 4⟩
        = [0x80 ||| (2 &&& 0x0F), 0x80 ||| 127] ++ pack64 (List.replicate 65536 (0 : Nat)).length
          ++ ([1, 2, 3, 4] ++ maskPayload ⟨1, 2, 3, 4⟩ 0 (List.replicate 65536 (0 : Nat))) ∧
      (0x80 ||| 127 : Nat) &&& 0x7F = 127 ∧
      unpackBE (pack64 (List.replicate 65536 (0 : Nat)).length)
        = (List.replicate 65536 (0 : Nat)).length)) :=
  ⟨⟨by rw [List.length_replicate], by rw [List.length_replicate],
      by rw [List.length_replicate]; omega, by rw [List.length_replicate]; omega,
      by rw [List.length_replicate]; omega⟩,
    C5_length_field_selection 2 ⟨1, 2, 3, 4⟩ _ _ _
      (by rw [List.length_replicate]) (by rw [List.length_replicate])
      (by rw [List.length_replicate]; omega) (by rw [List.length_replicate]; omega)
      (by rw [List.length_replicate]; omega)⟩

/-- C6: while `read_text` waits for a Text frame, every Ping in front of
the first Text frame is answered by exactly one Pong with the same
payload (in order, and nothing else is sent), Pongs and all other
non-Text non-Close frames are skipped without ending the wait, and the
call returns the payload of the first Text frame. -/
theorem C6_read_text_dispatch (pre : List WSFrame) (tp : List Nat) (post : List WSFrame)
    (hpre : ∀ f ∈ pre, f.opcode ≠ 0x1 ∧ f.opcode ≠ 0x8) :
    read_text_loop (pre ++ ⟨0x1, tp⟩ :: post)
      = ⟨(pre.filter (fun f => f.opcode == 0x9)).map (fun f => ⟨0xA, f.payload⟩),
         none, .ok tp⟩ := by
  induction pre with
  | nil => simp [read_text_loop]
  | cons f fs ih =>
    obtain ⟨hf1, hf8⟩ := hpre f (List.mem_cons_self f fs)
    have ih' := ih (fun g hg => hpre g (List.mem_cons_of_mem f hg))
    by_cases h9 : f.opcode = 0x9
    · simp [read_text_loop, hf8, h9, ih']
    · by_cases hA : f.opcode = 0xA
      · simp [read_text_loop, hf8, h9, hA, ih']
      · simp [read_text_loop, hf8, h9, hA, hf1, ih']

/-- Witness for C6_read_text_dispatch: a Ping, a Pong and a Binary frame
precede the first Text frame. -/
theorem C6_read_text_dispatch_witness :
    (∀ f ∈ ([⟨0x9, [120]⟩, ⟨0xA, [1]⟩, ⟨0x2, [2, 3]⟩] : List WSFrame),
        f.opcode ≠ 0x1 ∧ f.opcode ≠ 0x8) ∧
    read_text_loop (([⟨0x9, [120]⟩, ⟨0xA, [1]⟩, ⟨0x2, [2, 3]⟩] : List WSFrame)
        ++ ⟨0x1, [104]⟩ :: [⟨0x1, [9]⟩])
      = ⟨(([⟨0x9, [120]⟩, ⟨0xA, [1]⟩, ⟨0x2, [2, 3]⟩] : List WSFrame).filter
            (fun f => f.opcode == 0x9)).map (fun f => ⟨0xA, f.payload⟩),
         none, .ok [104]⟩ :=
  ⟨by decide, C6_read_text_dispatch _ _ _ (by decide)⟩

/-- C7: `discover_device` returns, immediately on the first reply of the
first listen window that has one (ignoring any further replies and
remaining attempts), the sender's address paired with the port parsed
from the reply text: with a semicolon present, the text after the first
semicolon, stripped, split on comma, first field through Python `int`,
falling back to 81 when that parse fails; without a semicolon, 81.  The
final conjuncts evaluate the three parse shapes concretely. -/
theorem C7_discovery_first_reply (r : UdpReply) (more : List UdpReply)
    (later : List (List UdpReply)) :
    discover_device ((r :: more) :: later)
      = some (r.addr,
          if (utf8DecodeIgnore r.data).contains ';' then
            match pyInt ((pyStrip (((utf8DecodeIgnore r.data).dropWhile
                (fun c => c ≠ ';')).drop 1)).takeWhile (fun c => c ≠ ',')) with
            | some n => n
            | none => 81
          else 81) ∧
    discover_device ([] :: (r :: more) :: later)
      = some (r.addr, parse_reply_port (utf8DecodeIgnore r.data)) ∧
    parse_reply_port "CrossPoint;8080,1".toList = 8080 ∧
    parse_reply_port "CrossPoint".toList = 81 ∧
    parse_reply_port "CrossPoint;zzz".toList = 81 :=
  ⟨rfl, rfl, by decide, by decide, by decide⟩

/-- Specification-level predicate following the claim's words for C8: a
"dotted-IPv4 string of four integer octets", i.e. four dot-separated
all-digit fields whose decimal values are at most 255. -/
def claim_is_ipv4 (host : String) : Bool :=
  (host.toList.splitOn '.').length == 4 &&
    (host.toList.splitOn '.').all (fun p =>
      !p.isEmpty && p.all Char.isDigit &&
        decide (p.foldl (fun a c => a * 10 + (c.toNat - 48)) 0 ≤ 255))

/-- C8, counterexample to the claim as stated: the broadcast target is
not added "if and only if the host is a dotted-IPv4 string of four
integer octets" — `"1.2.3.999"` is not such a string (999 is no octet),
yet `_broadcast_from_host` accepts it and derives `"1.2.3.255"`, because
the code only checks that each dot-separated field parses as a Python
integer, with no 0-255 range check. -/
theorem C8_counterexample :
    claim_is_ipv4 "1.2.3.999" = false ∧
    broadcast_from_host "1.2.3.999" = some "1.2.3.255" := by
  decide

/-- C8, amended: every non-empty candidate host is probed directly on all
six fixed ports; its subnet broadcast address (last dotted field replaced
by 255) is additionally targeted exactly when the host splits on '.' into
four fields that each parse as a Python integer (range-unchecked, so this
includes but is not limited to dotted-IPv4 octet strings); hosts without
such a form add no broadcast target, every target then carries the global
broadcast address or the host itself, and no error is raised. -/
theorem C8_target_derivation (h : String) (hne : h ≠ "") :
    (∀ p ∈ discovery_ports, (h, p) ∈ discovery_targets [h]) ∧
    (∀ b, broadcast_from_host h = some b →
      ∀ p ∈ discovery_ports, (b, p) ∈ discovery_targets [h]) ∧
    (broadcast_from_host h = none →
      ∀ t ∈ discovery_targets [h], t.1 = "255.255.255.255" ∨ t.1 = h) ∧
    ((broadcast_from_host h).isSome = true ↔
      ((h.toList.splitOn '.').length = 4 ∧
        (h.toList.splitOn '.').all (fun p => (pyInt p).isSome) = true)) := by
  have ht : discovery_targets [h]
      = discovery_ports.map (fun p => ("255.255.255.255", p)) ++
        (discovery_ports.map (fun p => (h, p)) ++
         ((match broadcast_from_host h with
           | some b => discovery_ports.map (fun p => (b, p))
           | none => []) ++ [])) := by
    simp [discovery_targets, hne]
  refine ⟨?_, ?_, ?_, ?_⟩
  · intro p hp
    rw [ht]
    exact List.mem_append_right _ (List.mem_append_left _ (List.mem_map_of_mem _ hp))
  · intro b hb p hp
    rw [ht, hb]
    exact List.mem_append_right _ (List.mem_append_right _
      (List.mem_append_left _ (List.mem_map_of_mem _ hp)))
  · intro hb t htt
    rw [ht, hb] at htt
    rcases List.mem_append.mp htt with h1 | h2
    · obtain ⟨p, _, rfl⟩ := List.mem_map.mp h1
      left; rfl
    · rcases List.mem_append.mp h2 with h3 | h4
      · obtain ⟨p, _, rfl⟩ := List.mem_map.mp h3
        right; rfl
      · simp at h4
  · constructor
    · intro hs
      by_cases hl : (h.toList.splitOn '.').length = 4
      · by_cases ha : (h.toList.splitOn '.').all (fun p => (pyInt p).isSome) = true
        · exact ⟨hl, ha⟩
        · rw [broadcast_from_host] at hs
          simp only [hl, ha] at hs
          simp at hs
      · rw [broadcast_from_host] at hs
        simp only [if_pos hl] at hs
        simp [hl] at hs
    · rintro ⟨hl, ha⟩
      rw [broadcast_from_host, if_neg (fun hx => hx hl), if_pos ha]
      rfl

/-- Witness for C8_target_derivation at the claim's example host
`"not-an-ip"` (no broadcast target, still probed directly). -/
theorem C8_target_derivation_witness :
    ("not-an-ip" : String) ≠ "" ∧
    ((∀ p ∈ discovery_ports, ("not-an-ip", p) ∈ discovery_targets ["not-an-ip"]) ∧
      (∀ b, broadcast_from_host "not-an-ip" = some b →
        ∀ p ∈ discovery_ports, (b, p) ∈ discovery_targets ["not-an-ip"]) ∧
      (broadcast_from_host "not-an-ip" = none →
        ∀ t ∈ discovery_targets ["not-an-ip"],
          t.1 = "255.255.255.255" ∨ t.1 = "not-an-ip") ∧
      ((broadcast_from_host "not-an-ip").isSome = true ↔
        ((("not-an-ip" : String).toList.splitOn '.').length = 4 ∧
          (("not-an-ip" : String).toList.splitOn '.').all
            (fun p => (pyInt p).isSome) = true))) :=
  ⟨by decide, C8_target_derivation "not-an-ip" (by decide)⟩

/-- C9: `close` never propagates a send failure — for both connection
states and both send outcomes it returns normally (the `Except` is always
`.ok`): with a live socket it best-effort sends one Close frame (opcode
0x8, empty payload) when the send succeeds, swallows the error and sends
nothing when it fails, and in all cases leaves the connection cleared
(`sock = none`); calling it with the connection already cleared is a
no-op, so a second `close` after any first one does nothing. -/
theorem C9_close_semantics (fault : Bool) (m : MaskKey) :
    close_run none fault m = .ok (none, []) ∧
    close_run (some ()) false m = .ok (none, [send_frame 0x8 [] m]) ∧
    close_run (some ()) true m = .ok (none, []) ∧
    (∀ sock, ∃ sent, close_run sock fault m = .ok (none, sent)) := by
  refine ⟨rfl, rfl, rfl, ?_⟩
  intro sock
  cases sock with
  | none => exact ⟨[], rfl⟩
  | some s =>
    cases fault with
    | false => exact ⟨[send_frame 0x8 [] m], rfl⟩
    | true => exact ⟨[], rfl⟩

/-- C10: with no active connection (`sock = none`), `drain_messages`
returns the empty list without raising, for any frames that might be
pending, while `send_text` and `send_binary` in the same state raise
`WebSocketError('Socket not connected')`. -/
theorem C10_disposed_connection (pending : List WSFrame) (fault : Bool) (s : String)
    (p : List Nat) (m : MaskKey) :
    drain_messages none pending = .ok [] ∧
    send_text none fault s m = .error "Socket not connected" ∧
    send_binary none fault p m = .error "Socket not connected" :=
  ⟨rfl, rfl, rfl⟩
